import Mathlib

/-!
Verification of `day15-pynautobot-api.py`: a sequential provisioning script
that performs six get-or-create calls (location type, location, manufacturer,
device type, role, device) against a remote inventory API.

The remote system is modelled as an explicit `RemoteState` (one list per
collection plus an id counter).  Remote failures are injected through a
`Faults` oracle: a per-collection flag for query-level lookup errors and one
for create errors.  Every resolver returns an `Outcome` (normal return,
`sys.exit` with a code, or an uncaught exception), the resulting remote
state, and the trace of observable events (network calls and printed lines).
-/

namespace Day15

/-- The six remote collections the script touches. -/
inductive Coll where
  | locationTypes
  | locations
  | manufacturers
  | deviceTypes
  | roles
  | devices
deriving DecidableEq, Repr, Fintype

/-- Position of each collection in the pipeline (order of `main`). -/
def stageIndex : Coll → Nat
  | .locationTypes => 0
  | .locations => 1
  | .manufacturers => 2
  | .deviceTypes => 3
  | .roles => 4
  | .devices => 5

/-- A printed line, tagged with the severity tag the script uses. -/
inductive Msg where
  | info (s : String)
  | warning (s : String)
  | error (s : String)
  | success (s : String)
deriving DecidableEq, Repr

/-- Observable events of a run: client construction, network calls against a
collection, and printed lines.  `delete` and `update` are part of the remote
API surface but are never emitted by this script. -/
inductive Event where
  | clientInit
  | lookup (c : Coll)
  | create (c : Coll)
  | delete (c : Coll)
  | update (c : Coll)
  | print (m : Msg)
deriving DecidableEq, Repr

def Event.isCreate : Event → Bool
  | .create _ => true
  | _ => false

def Event.isLookup : Event → Bool
  | .lookup _ => true
  | _ => false

def Event.isDelete : Event → Bool
  | .delete _ => true
  | _ => false

def Event.isUpdate : Event → Bool
  | .update _ => true
  | _ => false

/-- A remote request error (`pynautobot.core.query.RequestError`). -/
structure ApiError where
  msg : String
deriving DecidableEq, Repr

structure LocationType where
  id : Nat
  name : String
  description : String
  content_types : List String
deriving DecidableEq, Repr

structure Location where
  id : Nat
  name : String
  location_type : Nat
  status : String
deriving DecidableEq, Repr

structure Manufacturer where
  id : Nat
  name : String
deriving DecidableEq, Repr

structure DeviceType where
  id : Nat
  model : String
  manufacturer : Nat
deriving DecidableEq, Repr

structure Role where
  id : Nat
  name : String
  description : String
  content_types : List String
deriving DecidableEq, Repr

structure Device where
  id : Nat
  name : String
  device_type : Nat
  role : Nat
  location : Nat
  status : String
deriving DecidableEq, Repr

/-- The remote system state: one list per collection, plus the id the remote
side will assign to the next created entity. -/
structure RemoteState where
  location_types : List LocationType
  locations : List Location
  manufacturers : List Manufacturer
  device_types : List DeviceType
  roles : List Role
  devices : List Device
  nextId : Nat
deriving DecidableEq, Repr

def emptyState : RemoteState :=
  { location_types := [], locations := [], manufacturers := [],
    device_types := [], roles := [], devices := [], nextId := 0 }

/-- Fault injection for the remote API: whether a lookup against a collection
raises a query-level `RequestError`, and whether a create against it fails. -/
structure Faults where
  lookupFails : Coll → Bool
  createFails : Coll → Bool

def noFaults : Faults :=
  { lookupFails := fun _ => false, createFails := fun _ => false }

/-- How a call chain ends: a normal return, `sys.exit code`, or an uncaught
exception propagating out. -/
inductive Outcome (α : Type) where
  | ok (a : α)
  | exited (code : Nat)
  | raised (e : ApiError)
deriving DecidableEq, Repr

/-- Result of running a piece of the script: outcome, remote state after,
and the events it emitted in order. -/
abbrev Res (α : Type) := Outcome α × RemoteState × List Event

/-- Modelled from the spec: the client library's collection `get` (absent
from `src/`, it lives in pynautobot).  Per the spec's resolver contract, it
returns the match when the query yields exactly one, and no match otherwise
(zero or several); a query-level error is injected by the fault model. -/
def singleMatch {α : Type} (xs : List α) : Option α :=
  match xs with
  | [x] => some x
  | _ => none

def apiGet {α : Type} (f : Faults) (c : Coll) (ms : List α) :
    Except ApiError (Option α) :=
  if f.lookupFails c then .error ⟨"query error"⟩ else .ok (singleMatch ms)

/-- The location-type create payload of the source (name, description,
content types), with the id the remote side assigns. -/
def newLocationType (st : RemoteState) (n : String) : LocationType :=
  { id := st.nextId, name := n,
    description := "Created by script for " ++ n,
    content_types := ["dcim.device"] }

def addLocationType (st : RemoteState) (x : LocationType) : RemoteState :=
  { st with location_types := st.location_types ++ [x], nextId := st.nextId + 1 }

/-- The location create payload of the source (name, location type id,
status Active). -/
def newLocation (st : RemoteState) (n : String) (lt : LocationType) : Location :=
  { id := st.nextId, name := n, location_type := lt.id, status := "Active" }

def addLocation (st : RemoteState) (x : Location) : RemoteState :=
  { st with locations := st.locations ++ [x], nextId := st.nextId + 1 }

/-- The manufacturer create payload of the source (name only). -/
def newManufacturer (st : RemoteState) (n : String) : Manufacturer :=
  { id := st.nextId, name := n }

def addManufacturer (st : RemoteState) (x : Manufacturer) : RemoteState :=
  { st with manufacturers := st.manufacturers ++ [x], nextId := st.nextId + 1 }

/-- The device-type create payload of the source (model, manufacturer id). -/
def newDeviceType (st : RemoteState) (m : String) (man : Manufacturer) : DeviceType :=
  { id := st.nextId, model := m, manufacturer := man.id }

def addDeviceType (st : RemoteState) (x : DeviceType) : RemoteState :=
  { st with device_types := st.device_types ++ [x], nextId := st.nextId + 1 }

/-- The role create payload of the source (name, description, content types). -/
def newRole (st : RemoteState) (n : String) : Role :=
  { id := st.nextId, name := n,
    description := "Device role for " ++ n,
    content_types := ["dcim.device"] }

def addRole (st : RemoteState) (x : Role) : RemoteState :=
  { st with roles := st.roles ++ [x], nextId := st.nextId + 1 }

/-- The device create payload of the source (name plus the resolved foreign
keys for device type, role and location, and status Active). -/
def newDevice (st : RemoteState) (n : String) (location : Location)
    (device_type : DeviceType) (role : Role) : Device :=
  { id := st.nextId, name := n, device_type := device_type.id,
    role := role.id, location := location.id, status := "Active" }

def addDevice (st : RemoteState) (x : Device) : RemoteState :=
  { st with devices := st.devices ++ [x], nextId := st.nextId + 1 }

/-- `get_or_create_location_type(nb, location_type_name)` from the source:
lookup by name (error uncaught), return if found, else create with name,
description and content types; a create error prints and exits 1. -/
def get_or_create_location_type (f : Faults) (st : RemoteState)
    (location_type_name : String) : Res LocationType :=
  match apiGet f .locationTypes
      (st.location_types.filter (fun x => x.name == location_type_name)) with
  | .error e => (.raised e, st, [.lookup .locationTypes])
  | .ok (some location_type) =>
      (.ok location_type, st,
        [.lookup .locationTypes,
         .print (.info ("Found existing location type: " ++ location_type.name))])
  | .ok none =>
      let evs := [Event.lookup .locationTypes,
        .print (.info ("Creating location type " ++ location_type_name ++ "..."))]
      if f.createFails .locationTypes then
        (.exited 1, st, evs ++ [.create .locationTypes,
          .print (.error ("Failed to create location type " ++ location_type_name))])
      else
        let lt := newLocationType st location_type_name
        (.ok lt, addLocationType st lt, evs ++ [.create .locationTypes])

/-- `get_or_create_location(nb, location_name, location_type)`: lookup by
name (error uncaught), return if found, else create with name, the given
location type's id and status Active; a create error prints and exits 1. -/
def get_or_create_location (f : Faults) (st : RemoteState)
    (location_name : String) (location_type : LocationType) : Res Location :=
  match apiGet f .locations
      (st.locations.filter (fun x => x.name == location_name)) with
  | .error e => (.raised e, st, [.lookup .locations])
  | .ok (some location) =>
      (.ok location, st,
        [.lookup .locations,
         .print (.info ("Found existing location: " ++ location.name))])
  | .ok none =>
      let evs := [Event.lookup .locations,
        .print (.info ("Creating location " ++ location_name ++ " with type "
          ++ location_type.name ++ "..."))]
      if f.createFails .locations then
        (.exited 1, st, evs ++ [.create .locations,
          .print (.error ("Failed to create location " ++ location_name))])
      else
        let loc := newLocation st location_name location_type
        (.ok loc, addLocation st loc, evs ++ [.create .locations])

/-- `get_or_create_manufacturer(nb, manufacturer_name)`: lookup by name
(error uncaught), return if found, else create with only the name; a create
error prints and exits 1. -/
def get_or_create_manufacturer (f : Faults) (st : RemoteState)
    (manufacturer_name : String) : Res Manufacturer :=
  match apiGet f .manufacturers
      (st.manufacturers.filter (fun x => x.name == manufacturer_name)) with
  | .error e => (.raised e, st, [.lookup .manufacturers])
  | .ok (some manufacturer) =>
      (.ok manufacturer, st,
        [.lookup .manufacturers,
         .print (.info ("Found existing manufacturer: " ++ manufacturer.name))])
  | .ok none =>
      let evs := [Event.lookup .manufacturers,
        .print (.info ("Creating manufacturer " ++ manufacturer_name ++ "..."))]
      if f.createFails .manufacturers then
        (.exited 1, st, evs ++ [.create .manufacturers,
          .print (.error ("Failed to create manufacturer " ++ manufacturer_name))])
      else
        let m := newManufacturer st manufacturer_name
        (.ok m, addManufacturer st m, evs ++ [.create .manufacturers])

/-- `get_or_create_device_type(nb, device_type_model, manufacturer)`: lookup
by (model, manufacturer id) with the query error caught and treated as not
found; return if found, else create with model and manufacturer id; a create
error prints and exits 1. -/
def get_or_create_device_type (f : Faults) (st : RemoteState)
    (device_type_model : String) (manufacturer : Manufacturer) : Res DeviceType :=
  let device_type : Option DeviceType :=
    match apiGet f .deviceTypes
        (st.device_types.filter (fun x =>
          x.model == device_type_model && x.manufacturer == manufacturer.id)) with
    | .error _ => none
    | .ok r => r
  match device_type with
  | some dt =>
      (.ok dt, st,
        [.lookup .deviceTypes,
         .print (.info ("Found existing device type: " ++ dt.model))])
  | none =>
      let evs := [Event.lookup .deviceTypes,
        .print (.info ("Creating device type " ++ device_type_model
          ++ " for manufacturer " ++ manufacturer.name ++ "..."))]
      if f.createFails .deviceTypes then
        (.exited 1, st, evs ++ [.create .deviceTypes,
          .print (.error ("Failed to create device type " ++ device_type_model))])
      else
        let dt := newDeviceType st device_type_model manufacturer
        (.ok dt, addDeviceType st dt, evs ++ [.create .deviceTypes])

/-- `get_or_create_role(nb, role_name)`: lookup by name (error uncaught),
return if found, else create with name, description and content types; a
create error prints and exits 1. -/
def get_or_create_role (f : Faults) (st : RemoteState)
    (role_name : String) : Res Role :=
  match apiGet f .roles (st.roles.filter (fun x => x.name == role_name)) with
  | .error e => (.raised e, st, [.lookup .roles])
  | .ok (some role) =>
      (.ok role, st,
        [.lookup .roles, .print (.info ("Found existing role: " ++ role.name))])
  | .ok none =>
      let evs := [Event.lookup .roles,
        .print (.info ("Creating role " ++ role_name ++ " for devices..."))]
      if f.createFails .roles then
        (.exited 1, st, evs ++ [.create .roles,
          .print (.error ("Failed to create role " ++ role_name))])
      else
        let r := newRole st role_name
        (.ok r, addRole st r, evs ++ [.create .roles])

/-- `create_device(nb, device_name, location, device_type, role)`: lookup by
(name, location id) (error uncaught); if found, print a warning and return
the existing device; else create with name, device type id, role id, location
id and status Active; a create error prints and exits 1. -/
def create_device (f : Faults) (st : RemoteState) (device_name : String)
    (location : Location) (device_type : DeviceType) (role : Role) : Res Device :=
  match apiGet f .devices
      (st.devices.filter (fun x =>
        x.name == device_name && x.location == location.id)) with
  | .error e => (.raised e, st, [.lookup .devices])
  | .ok (some existing_device) =>
      (.ok existing_device, st,
        [.lookup .devices,
         .print (.warning ("Device " ++ device_name
           ++ " already exists at location " ++ location.name ++ "."))])
  | .ok none =>
      let evs := [Event.lookup .devices,
        .print (.info ("Creating new device " ++ device_name ++ "..."))]
      if f.createFails .devices then
        (.exited 1, st, evs ++ [.create .devices,
          .print (.error ("Failed to create device " ++ device_name))])
      else
        let d := newDevice st device_name location device_type role
        (.ok d, addDevice st d, evs ++ [.create .devices])

/-- The two environment variables the script reads (`None` when unset). -/
structure Env where
  url : Option String
  token : Option String

/-- Python truthiness of `os.environ.get(...)`: unset or empty is falsy. -/
def truthy (s : Option String) : Bool :=
  match s with
  | none => false
  | some v => !(v == "")

/-- The final summary the script prints on success. -/
structure Summary where
  name : String
  location : String
  role : String
  model : String
  status : String
deriving DecidableEq, Repr

def locationNameById (st : RemoteState) (i : Nat) : String :=
  match st.locations.find? (fun l => l.id == i) with
  | some l => l.name
  | none => ""

def roleNameById (st : RemoteState) (i : Nat) : String :=
  match st.roles.find? (fun r => r.id == i) with
  | some r => r.name
  | none => ""

def deviceTypeModelById (st : RemoteState) (i : Nat) : String :=
  match st.device_types.find? (fun d => d.id == i) with
  | some d => d.model
  | none => ""

/-- Sequencing of pipeline stages: a `sys.exit` or an uncaught exception in
a stage short-circuits every later stage; a normal return feeds the value and
the updated remote state into the continuation, accumulating events. -/
def runStep {α β : Type} (r : Res α) (k : α → RemoteState → Res β) : Res β :=
  match r with
  | (.ok a, st, ev) =>
      match k a st with
      | (o, st2, ev2) => (o, st2, ev ++ ev2)
  | (.exited c, st, ev) => (.exited c, st, ev)
  | (.raised e, st, ev) => (.raised e, st, ev)

/-- `main()` from the source: check the two environment variables (exit 1 if
either is missing or empty, before constructing the client), build the API
client, then run the six resolvers in dependency order with the hard-coded
example values, and return the device summary. -/
def main (env : Env) (f : Faults) (st : RemoteState) : Res Summary :=
  if !(truthy env.url) || !(truthy env.token) then
    (.exited 1, st,
      [.print (.error "Missing NAUTOBOT_API_URL or NAUTOBOT_API_TOKEN environment variable.")])
  else
    runStep ((.ok (), st, [Event.clientInit]) : Res Unit) (fun _ st0 =>
      runStep (get_or_create_location_type f st0 "Campus") (fun loc_type st1 =>
        runStep (get_or_create_location f st1 "MyCampusLocation" loc_type) (fun location st2 =>
          runStep (get_or_create_manufacturer f st2 "Cisco") (fun manufacturer st3 =>
            runStep (get_or_create_device_type f st3 "C9300-48P" manufacturer) (fun device_type st4 =>
              runStep (get_or_create_role f st4 "Access Switch") (fun role st5 =>
                runStep (create_device f st5 "myswitch001" location device_type role)
                  (fun new_device st6 =>
                    (.ok { name := new_device.name,
                           location := locationNameById st6 new_device.location,
                           role := roleNameById st6 new_device.role,
                           model := deviceTypeModelById st6 new_device.device_type,
                           status := new_device.status },
                     st6,
                     [.print (.success "Device created or retrieved successfully:")]))))))))

/-- A well-formed environment for the example runs. -/
def goodEnv : Env := { url := some "http://nautobot.local", token := some "abc123" }

/-- Faults where only the create against collection `c` fails. -/
def onlyCreateFail (c : Coll) : Faults :=
  { lookupFails := fun _ => false, createFails := fun x => x == c }

/-- Faults where every lookup raises a query-level error. -/
def allLookupFail : Faults :=
  { lookupFails := fun _ => true, createFails := fun _ => false }

/-- All network events in `evs` touch collections at stage `k` or earlier. -/
def laterUntouched (k : Nat) (evs : List Event) : Bool :=
  evs.all (fun e =>
    match e with
    | .lookup c => Nat.ble (stageIndex c) k
    | .create c => Nat.ble (stageIndex c) k
    | .delete c => Nat.ble (stageIndex c) k
    | .update c => Nat.ble (stageIndex c) k
    | _ => true)

/-- Whether the trace contains an error-level printed line. -/
def hasErrorPrint (evs : List Event) : Bool :=
  evs.any (fun e =>
    match e with
    | .print (.error _) => true
    | _ => false)

/-- `b` extends `a`: every collection of `b` is the corresponding collection
of `a` with entities appended at the end (nothing removed or modified). -/
def stateGrows (a b : RemoteState) : Prop :=
  (∃ t, b.location_types = a.location_types ++ t) ∧
  (∃ t, b.locations = a.locations ++ t) ∧
  (∃ t, b.manufacturers = a.manufacturers ++ t) ∧
  (∃ t, b.device_types = a.device_types ++ t) ∧
  (∃ t, b.roles = a.roles ++ t) ∧
  (∃ t, b.devices = a.devices ++ t)

/-- The trace contains no delete and no update call. -/
def noDestroy (evs : List Event) : Prop :=
  evs.all (fun e => !(e.isDelete || e.isUpdate)) = true

lemma stateGrows_refl (s : RemoteState) : stateGrows s s :=
  ⟨⟨[], by simp⟩, ⟨[], by simp⟩, ⟨[], by simp⟩, ⟨[], by simp⟩, ⟨[], by simp⟩,
   ⟨[], by simp⟩⟩

lemma stateGrows_trans {a b c : RemoteState} (h1 : stateGrows a b)
    (h2 : stateGrows b c) : stateGrows a c := by
  obtain ⟨⟨t1, e1⟩, ⟨t2, e2⟩, ⟨t3, e3⟩, ⟨t4, e4⟩, ⟨t5, e5⟩, ⟨t6, e6⟩⟩ := h1
  obtain ⟨⟨u1, g1⟩, ⟨u2, g2⟩, ⟨u3, g3⟩, ⟨u4, g4⟩, ⟨u5, g5⟩, ⟨u6, g6⟩⟩ := h2
  exact ⟨⟨t1 ++ u1, by rw [g1, e1, List.append_assoc]⟩,
         ⟨t2 ++ u2, by rw [g2, e2, List.append_assoc]⟩,
         ⟨t3 ++ u3, by rw [g3, e3, List.append_assoc]⟩,
         ⟨t4 ++ u4, by rw [g4, e4, List.append_assoc]⟩,
         ⟨t5 ++ u5, by rw [g5, e5, List.append_assoc]⟩,
         ⟨t6 ++ u6, by rw [g6, e6, List.append_assoc]⟩⟩

lemma noDestroy_append {a b : List Event} (ha : noDestroy a) (hb : noDestroy b) :
    noDestroy (a ++ b) := by
  simp only [noDestroy, List.all_append, Bool.and_eq_true] at *
  exact ⟨ha, hb⟩

lemma stateGrows_addLocationType (st : RemoteState) (x : LocationType) :
    stateGrows st (addLocationType st x) := by
  unfold stateGrows addLocationType
  exact ⟨⟨[x], rfl⟩, ⟨[], by simp⟩, ⟨[], by simp⟩, ⟨[], by simp⟩, ⟨[], by simp⟩,
    ⟨[], by simp⟩⟩

lemma stateGrows_addLocation (st : RemoteState) (x : Location) :
    stateGrows st (addLocation st x) := by
  unfold stateGrows addLocation
  exact ⟨⟨[], by simp⟩, ⟨[x], rfl⟩, ⟨[], by simp⟩, ⟨[], by simp⟩, ⟨[], by simp⟩,
    ⟨[], by simp⟩⟩

lemma stateGrows_addManufacturer (st : RemoteState) (x : Manufacturer) :
    stateGrows st (addManufacturer st x) := by
  unfold stateGrows addManufacturer
  exact ⟨⟨[], by simp⟩, ⟨[], by simp⟩, ⟨[x], rfl⟩, ⟨[], by simp⟩, ⟨[], by simp⟩,
    ⟨[], by simp⟩⟩

lemma stateGrows_addDeviceType (st : RemoteState) (x : DeviceType) :
    stateGrows st (addDeviceType st x) := by
  unfold stateGrows addDeviceType
  exact ⟨⟨[], by simp⟩, ⟨[], by simp⟩, ⟨[], by simp⟩, ⟨[x], rfl⟩, ⟨[], by simp⟩,
    ⟨[], by simp⟩⟩

lemma stateGrows_addRole (st : RemoteState) (x : Role) :
    stateGrows st (addRole st x) := by
  unfold stateGrows addRole
  exact ⟨⟨[], by simp⟩, ⟨[], by simp⟩, ⟨[], by simp⟩, ⟨[], by simp⟩, ⟨[x], rfl⟩,
    ⟨[], by simp⟩⟩

lemma stateGrows_addDevice (st : RemoteState) (x : Device) :
    stateGrows st (addDevice st x) := by
  unfold stateGrows addDevice
  exact ⟨⟨[], by simp⟩, ⟨[], by simp⟩, ⟨[], by simp⟩, ⟨[], by simp⟩, ⟨[], by simp⟩,
    ⟨[x], rfl⟩⟩

lemma frame_location_type (f : Faults) (st : RemoteState) (n : String) :
    stateGrows st (get_or_create_location_type f st n).2.1 ∧
    noDestroy (get_or_create_location_type f st n).2.2 := by
  rcases h : apiGet f .locationTypes
      (st.location_types.filter (fun x => x.name == n)) with e | o
  · simp only [get_or_create_location_type, h]
    exact ⟨stateGrows_refl st, rfl⟩
  · rcases o with _ | x
    · by_cases hc : f.createFails .locationTypes
      · simp only [get_or_create_location_type, h, hc, if_true]
        exact ⟨stateGrows_refl st, rfl⟩
      · simp only [get_or_create_location_type, h, hc, if_false, Bool.false_eq_true]
        exact ⟨stateGrows_addLocationType st _, rfl⟩
    · simp only [get_or_create_location_type, h]
      exact ⟨stateGrows_refl st, rfl⟩

lemma frame_location (f : Faults) (st : RemoteState) (n : String)
    (lt : LocationType) :
    stateGrows st (get_or_create_location f st n lt).2.1 ∧
    noDestroy (get_or_create_location f st n lt).2.2 := by
  rcases h : apiGet f .locations
      (st.locations.filter (fun x => x.name == n)) with e | o
  · simp only [get_or_create_location, h]
    exact ⟨stateGrows_refl st, rfl⟩
  · rcases o with _ | x
    · by_cases hc : f.createFails .locations
      · simp only [get_or_create_location, h, hc, if_true]
        exact ⟨stateGrows_refl st, rfl⟩
      · simp only [get_or_create_location, h, hc, if_false, Bool.false_eq_true]
        exact ⟨stateGrows_addLocation st _, rfl⟩
    · simp only [get_or_create_location, h]
      exact ⟨stateGrows_refl st, rfl⟩

lemma frame_manufacturer (f : Faults) (st : RemoteState) (n : String) :
    stateGrows st (get_or_create_manufacturer f st n).2.1 ∧
    noDestroy (get_or_create_manufacturer f st n).2.2 := by
  rcases h : apiGet f .manufacturers
      (st.manufacturers.filter (fun x => x.name == n)) with e | o
  · simp only [get_or_create_manufacturer, h]
    exact ⟨stateGrows_refl st, rfl⟩
  · rcases o with _ | x
    · by_cases hc : f.createFails .manufacturers
      · simp only [get_or_create_manufacturer, h, hc, if_true]
        exact ⟨stateGrows_refl st, rfl⟩
      · simp only [get_or_create_manufacturer, h, hc, if_false, Bool.false_eq_true]
        exact ⟨stateGrows_addManufacturer st _, rfl⟩
    · simp only [get_or_create_manufacturer, h]
      exact ⟨stateGrows_refl st, rfl⟩

lemma frame_device_type (f : Faults) (st : RemoteState) (m : String)
    (man : Manufacturer) :
    stateGrows st (get_or_create_device_type f st m man).2.1 ∧
    noDestroy (get_or_create_device_type f st m man).2.2 := by
  rcases h : apiGet f .deviceTypes
      (st.device_types.filter (fun x =>
        x.model == m && x.manufacturer == man.id)) with e | o
  · by_cases hc : f.createFails .deviceTypes
    · simp only [get_or_create_device_type, h, hc, if_true]
      exact ⟨stateGrows_refl st, rfl⟩
    · simp only [get_or_create_device_type, h, hc, if_false, Bool.false_eq_true]
      exact ⟨stateGrows_addDeviceType st _, rfl⟩
  · rcases o with _ | x
    · by_cases hc : f.createFails .deviceTypes
      · simp only [get_or_create_device_type, h, hc, if_true]
        exact ⟨stateGrows_refl st, rfl⟩
      · simp only [get_or_create_device_type, h, hc, if_false, Bool.false_eq_true]
        exact ⟨stateGrows_addDeviceType st _, rfl⟩
    · simp only [get_or_create_device_type, h]
      exact ⟨stateGrows_refl st, rfl⟩

lemma frame_role (f : Faults) (st : RemoteState) (n : String) :
    stateGrows st (get_or_create_role f st n).2.1 ∧
    noDestroy (get_or_create_role f st n).2.2 := by
  rcases h : apiGet f .roles (st.roles.filter (fun x => x.name == n)) with e | o
  · simp only [get_or_create_role, h]
    exact ⟨stateGrows_refl st, rfl⟩
  · rcases o with _ | x
    · by_cases hc : f.createFails .roles
      · simp only [get_or_create_role, h, hc, if_true]
        exact ⟨stateGrows_refl st, rfl⟩
      · simp only [get_or_create_role, h, hc, if_false, Bool.false_eq_true]
        exact ⟨stateGrows_addRole st _, rfl⟩
    · simp only [get_or_create_role, h]
      exact ⟨stateGrows_refl st, rfl⟩

lemma frame_device (f : Faults) (st : RemoteState) (n : String)
    (loc : Location) (dt : DeviceType) (rl : Role) :
    stateGrows st (create_device f st n loc dt rl).2.1 ∧
    noDestroy (create_device f st n loc dt rl).2.2 := by
  rcases h : apiGet f .devices
      (st.devices.filter (fun x =>
        x.name == n && x.location == loc.id)) with e | o
  · simp only [create_device, h]
    exact ⟨stateGrows_refl st, rfl⟩
  · rcases o with _ | x
    · by_cases hc : f.createFails .devices
      · simp only [create_device, h, hc, if_true]
        exact ⟨stateGrows_refl st, rfl⟩
      · simp only [create_device, h, hc, if_false, Bool.false_eq_true]
        exact ⟨stateGrows_addDevice st _, rfl⟩
    · simp only [create_device, h]
      exact ⟨stateGrows_refl st, rfl⟩

lemma runStep_frame {α β : Type} {st0 : RemoteState} (r : Res α)
    (k : α → RemoteState → Res β)
    (hr : stateGrows st0 r.2.1 ∧ noDestroy r.2.2)
    (hk : ∀ a s, stateGrows s (k a s).2.1 ∧ noDestroy (k a s).2.2) :
    stateGrows st0 (runStep r k).2.1 ∧ noDestroy (runStep r k).2.2 := by
  rcases r with ⟨o, s, ev⟩
  cases o with
  | ok a =>
      have hks := hk a s
      exact ⟨stateGrows_trans hr.1 hks.1, noDestroy_append hr.2 hks.2⟩
  | exited c => exact hr
  | raised e => exact hr

/-- Claim C8: no rollback or compensation.  Whatever the environment, the injected
faults and the starting remote state, a run of `main` only ever appends
entities: every collection of the final remote state is the initial one with
entities appended (so everything created by earlier stages of a failing run
is left in place), and the trace contains no delete and no update call. -/
theorem c8_no_rollback (env : Env) (f : Faults) (st : RemoteState) :
    stateGrows st (main env f st).2.1 ∧ noDestroy (main env f st).2.2 := by
  cases hcond : (!(truthy env.url) || !(truthy env.token)) with
  | true =>
      simp only [main, hcond, if_true]
      exact ⟨stateGrows_refl st, rfl⟩
  | false =>
      simp only [main, hcond, if_false, Bool.false_eq_true]
      refine runStep_frame _ _ ⟨stateGrows_refl st, rfl⟩ ?_
      intro _ st0
      refine runStep_frame _ _ (frame_location_type f st0 "Campus") ?_
      intro loc_type st1
      refine runStep_frame _ _ (frame_location f st1 "MyCampusLocation" loc_type) ?_
      intro location st2
      refine runStep_frame _ _ (frame_manufacturer f st2 "Cisco") ?_
      intro manufacturer st3
      refine runStep_frame _ _ (frame_device_type f st3 "C9300-48P" manufacturer) ?_
      intro device_type st4
      refine runStep_frame _ _ (frame_role f st4 "Access Switch") ?_
      intro role st5
      refine runStep_frame _ _ (frame_device f st5 "myswitch001" location device_type role) ?_
      intro new_device st6
      exact ⟨stateGrows_refl st6, rfl⟩

end Day15

namespace Day15

/-- Claim C4: a query-level error in the device-type lookup is swallowed and
treated as "not found": the resolver proceeds to the create request and
returns the newly created device type instead of terminating the run. -/
theorem c4_device_type_lookup_error_recovered (f : Faults) (st : RemoteState)
    (m : String) (man : Manufacturer)
    (hl : f.lookupFails .deviceTypes = true)
    (hc : f.createFails .deviceTypes = false) :
    get_or_create_device_type f st m man =
      (.ok (newDeviceType st m man),
       addDeviceType st (newDeviceType st m man),
       [.lookup .deviceTypes,
        .print (.info ("Creating device type " ++ m ++ " for manufacturer "
          ++ man.name ++ "...")),
        .create .deviceTypes]) := by
  simp [get_or_create_device_type, apiGet, hl, hc]

/-- Witness for C4 at a concrete fault model, state and manufacturer. -/
theorem c4_witness :
    get_or_create_device_type allLookupFail emptyState "C9300-48P"
        { id := 2, name := "Cisco" } =
      (.ok { id := 0, model := "C9300-48P", manufacturer := 2 },
       { emptyState with
           device_types := [{ id := 0, model := "C9300-48P", manufacturer := 2 }],
           nextId := 1 },
       [.lookup .deviceTypes,
        .print (.info "Creating device type C9300-48P for manufacturer Cisco..."),
        .create .deviceTypes]) :=
  c4_device_type_lookup_error_recovered allLookupFail emptyState "C9300-48P"
    { id := 2, name := "Cisco" } rfl rfl

/-- Claim C5: if either environment variable is unset or empty, `main` prints an
error and exits with status 1; the trace shows no client construction and no
network call. -/
theorem c5_missing_env_exits_before_client (env : Env) (f : Faults)
    (st : RemoteState)
    (h : truthy env.url = false ∨ truthy env.token = false) :
    main env f st =
      (.exited 1, st,
       [.print (.error "Missing NAUTOBOT_API_URL or NAUTOBOT_API_TOKEN environment variable.")]) := by
  rcases h with h | h <;> simp [main, h]

/-- Witness for C5: unset URL with a present token. -/
theorem c5_witness :
    main { url := none, token := some "abc123" } noFaults emptyState =
      (.exited 1, emptyState,
       [.print (.error "Missing NAUTOBOT_API_URL or NAUTOBOT_API_TOKEN environment variable.")]) :=
  c5_missing_env_exits_before_client { url := none, token := some "abc123" }
    noFaults emptyState (Or.inl rfl)

/-- Claim C9: for the five resolvers other than the device-type one, a query-level
error during the existence lookup is not handled locally: the resolver ends
with the exception propagating (`raised`), not with `sys.exit` and not with a
create. -/
theorem c9_other_lookup_errors_propagate (f : Faults) (st : RemoteState) :
    (∀ n, f.lookupFails .locationTypes = true →
      get_or_create_location_type f st n =
        (.raised ⟨"query error"⟩, st, [.lookup .locationTypes])) ∧
    (∀ n lt, f.lookupFails .locations = true →
      get_or_create_location f st n lt =
        (.raised ⟨"query error"⟩, st, [.lookup .locations])) ∧
    (∀ n, f.lookupFails .manufacturers = true →
      get_or_create_manufacturer f st n =
        (.raised ⟨"query error"⟩, st, [.lookup .manufacturers])) ∧
    (∀ n, f.lookupFails .roles = true →
      get_or_create_role f st n =
        (.raised ⟨"query error"⟩, st, [.lookup .roles])) ∧
    (∀ n loc dt rl, f.lookupFails .devices = true →
      create_device f st n loc dt rl =
        (.raised ⟨"query error"⟩, st, [.lookup .devices])) := by
  refine ⟨fun n h => ?_, fun n lt h => ?_, fun n h => ?_, fun n h => ?_,
    fun n loc dt rl h => ?_⟩
  · simp [get_or_create_location_type, apiGet, h]
  · simp [get_or_create_location, apiGet, h]
  · simp [get_or_create_manufacturer, apiGet, h]
  · simp [get_or_create_role, apiGet, h]
  · simp [create_device, apiGet, h]

/-- Witness for C9: with every lookup faulted, each of the five resolvers
ends in a propagating exception on the empty state. -/
theorem c9_witness :
    get_or_create_location_type allLookupFail emptyState "Campus" =
      (.raised ⟨"query error"⟩, emptyState, [.lookup .locationTypes]) ∧
    get_or_create_location allLookupFail emptyState "MyCampusLocation"
        (newLocationType emptyState "Campus") =
      (.raised ⟨"query error"⟩, emptyState, [.lookup .locations]) ∧
    get_or_create_manufacturer allLookupFail emptyState "Cisco" =
      (.raised ⟨"query error"⟩, emptyState, [.lookup .manufacturers]) ∧
    get_or_create_role allLookupFail emptyState "Access Switch" =
      (.raised ⟨"query error"⟩, emptyState, [.lookup .roles]) ∧
    create_device allLookupFail emptyState "myswitch001"
        (newLocation emptyState "MyCampusLocation" (newLocationType emptyState "Campus"))
        (newDeviceType emptyState "C9300-48P" (newManufacturer emptyState "Cisco"))
        (newRole emptyState "Access Switch") =
      (.raised ⟨"query error"⟩, emptyState, [.lookup .devices]) := by
  have h := c9_other_lookup_errors_propagate allLookupFail emptyState
  exact ⟨h.1 "Campus" rfl,
    h.2.1 "MyCampusLocation" (newLocationType emptyState "Campus") rfl,
    h.2.2.1 "Cisco" rfl,
    h.2.2.2.1 "Access Switch" rfl,
    h.2.2.2.2 "myswitch001"
      (newLocation emptyState "MyCampusLocation" (newLocationType emptyState "Campus"))
      (newDeviceType emptyState "C9300-48P" (newManufacturer emptyState "Cisco"))
      (newRole emptyState "Access Switch") rfl⟩

/-- Claim C10: when a device matching (name, location) already exists, the result
of `create_device` does not depend on the `device_type` and `role` arguments:
for every such pair the very same pre-existing device is returned, the state
is unchanged and no create call is issued. -/
theorem c10_found_device_ignores_type_and_role (f : Faults) (st : RemoteState)
    (n : String) (loc : Location) (d : Device)
    (hl : f.lookupFails .devices = false)
    (hfil : st.devices.filter (fun x => x.name == n && x.location == loc.id) = [d]) :
    (∀ dt rl, create_device f st n loc dt rl =
      (.ok d, st,
       [.lookup .devices,
        .print (.warning ("Device " ++ n ++ " already exists at location "
          ++ loc.name ++ "."))])) ∧
    (∀ dt1 rl1 dt2 rl2, create_device f st n loc dt1 rl1 =
      create_device f st n loc dt2 rl2) := by
  have key : ∀ dt rl, create_device f st n loc dt rl =
      (.ok d, st,
       [.lookup .devices,
        .print (.warning ("Device " ++ n ++ " already exists at location "
          ++ loc.name ++ "."))]) := by
    intro dt rl
    simp [create_device, apiGet, hl, hfil, singleMatch]
  exact ⟨key, fun dt1 rl1 dt2 rl2 => (key dt1 rl1).trans (key dt2 rl2).symm⟩

/-- A remote state holding one device "myswitch001" at location id 1, for
exercising the device resolver's found path. -/
def oneDeviceState : RemoteState :=
  { emptyState with
      devices := [{ id := 5, name := "myswitch001", device_type := 3,
                    role := 4, location := 1, status := "Active" }],
      nextId := 6 }

/-- Witness for C10: the found path returns the stored device for two
different (device type, role) argument pairs. -/
theorem c10_witness :
    (create_device noFaults oneDeviceState "myswitch001"
        { id := 1, name := "MyCampusLocation", location_type := 0, status := "Active" }
        { id := 3, model := "C9300-48P", manufacturer := 2 }
        { id := 4, name := "Access Switch", description := "", content_types := [] } =
      (.ok { id := 5, name := "myswitch001", device_type := 3, role := 4,
             location := 1, status := "Active" },
       oneDeviceState,
       [.lookup .devices,
        .print (.warning "Device myswitch001 already exists at location MyCampusLocation.")])) ∧
    (create_device noFaults oneDeviceState "myswitch001"
        { id := 1, name := "MyCampusLocation", location_type := 0, status := "Active" }
        { id := 30, model := "OtherModel", manufacturer := 9 }
        { id := 40, name := "Core Switch", description := "", content_types := [] } =
      create_device noFaults oneDeviceState "myswitch001"
        { id := 1, name := "MyCampusLocation", location_type := 0, status := "Active" }
        { id := 3, model := "C9300-48P", manufacturer := 2 }
        { id := 4, name := "Access Switch", description := "", content_types := [] }) := by
  have h := c10_found_device_ignores_type_and_role noFaults oneDeviceState
    "myswitch001"
    { id := 1, name := "MyCampusLocation", location_type := 0, status := "Active" }
    { id := 5, name := "myswitch001", device_type := 3, role := 4,
      location := 1, status := "Active" }
    rfl (by decide)
  exact ⟨h.1 _ _, h.2 _ _ _ _⟩

/-- The remote state after one run of `main` on a fresh system: one entity
per collection, each later one holding the ids of its dependencies. -/
def freshRunState : RemoteState :=
  { location_types := [{ id := 0, name := "Campus", description := "Created by script for Campus", content_types := ["dcim.device"] }],
    locations := [{ id := 1, name := "MyCampusLocation", location_type := 0, status := "Active" }],
    manufacturers := [{ id := 2, name := "Cisco" }],
    device_types := [{ id := 3, model := "C9300-48P", manufacturer := 2 }],
    roles := [{ id := 4, name := "Access Switch", description := "Device role for Access Switch", content_types := ["dcim.device"] }],
    devices := [{ id := 5, name := "myswitch001", device_type := 3, role := 4, location := 1, status := "Active" }],
    nextId := 6 }

/-- Claim C6: on a fresh remote system one run issues exactly six creates in the
order location type, location, manufacturer, device type, role, device; the
final summary reports myswitch001 / MyCampusLocation / Access Switch /
C9300-48P / Active; and the resulting state shows each later entity holding
the identifiers of the earlier results (location 1 references location type
0, device type 3 references manufacturer 2, device 5 references 3, 4, 1). -/
theorem c6_fresh_run_order_and_summary :
    (main goodEnv noFaults emptyState).1 =
      .ok { name := "myswitch001", location := "MyCampusLocation",
            role := "Access Switch", model := "C9300-48P", status := "Active" } ∧
    (main goodEnv noFaults emptyState).2.2.filter Event.isCreate =
      [.create .locationTypes, .create .locations, .create .manufacturers,
       .create .deviceTypes, .create .roles, .create .devices] ∧
    (main goodEnv noFaults emptyState).2.2.filter Event.isLookup =
      [.lookup .locationTypes, .lookup .locations, .lookup .manufacturers,
       .lookup .deviceTypes, .lookup .roles, .lookup .devices] ∧
    (main goodEnv noFaults emptyState).2.1 = freshRunState := by
  decide

/-- Claim C3: in a run where the create against collection `c` fails (and only
that one), `main` ends with exit status 1, an error line is printed, and no
network call against any collection later in the pipeline than `c` is made. -/
theorem c3_create_failure_exits_pipeline :
    ∀ c : Coll,
      (main goodEnv (onlyCreateFail c) emptyState).1 = .exited 1 ∧
      hasErrorPrint (main goodEnv (onlyCreateFail c) emptyState).2.2 = true ∧
      laterUntouched (stageIndex c)
        (main goodEnv (onlyCreateFail c) emptyState).2.2 = true := by
  decide

/-- Claim C1: for each of the six entity kinds, when an entity with the given
uniqueness key already exists (the lookup yields exactly it), the resolver
returns it with the state unchanged and a trace holding the lookup and one
printed line but no create; and a second run of the whole script against the
state produced by a first run performs six lookups, zero creates, leaves the
state unchanged and reports the same device summary. -/
theorem c1_second_run_reuses_existing :
    (∀ f st n x, f.lookupFails .locationTypes = false →
      st.location_types.filter (fun y => y.name == n) = [x] →
      get_or_create_location_type f st n =
        (.ok x, st, [.lookup .locationTypes,
          .print (.info ("Found existing location type: " ++ x.name))])) ∧
    (∀ f st n lt x, f.lookupFails .locations = false →
      st.locations.filter (fun y => y.name == n) = [x] →
      get_or_create_location f st n lt =
        (.ok x, st, [.lookup .locations,
          .print (.info ("Found existing location: " ++ x.name))])) ∧
    (∀ f st n x, f.lookupFails .manufacturers = false →
      st.manufacturers.filter (fun y => y.name == n) = [x] →
      get_or_create_manufacturer f st n =
        (.ok x, st, [.lookup .manufacturers,
          .print (.info ("Found existing manufacturer: " ++ x.name))])) ∧
    (∀ f st m man x, f.lookupFails .deviceTypes = false →
      st.device_types.filter (fun y => y.model == m && y.manufacturer == man.id) = [x] →
      get_or_create_device_type f st m man =
        (.ok x, st, [.lookup .deviceTypes,
          .print (.info ("Found existing device type: " ++ x.model))])) ∧
    (∀ f st n x, f.lookupFails .roles = false →
      st.roles.filter (fun y => y.name == n) = [x] →
      get_or_create_role f st n =
        (.ok x, st, [.lookup .roles,
          .print (.info ("Found existing role: " ++ x.name))])) ∧
    (∀ f st n loc dt rl x, f.lookupFails .devices = false →
      st.devices.filter (fun y => y.name == n && y.location == loc.id) = [x] →
      create_device f st n loc dt rl =
        (.ok x, st, [.lookup .devices,
          .print (.warning ("Device " ++ n ++ " already exists at location "
            ++ loc.name ++ "."))])) ∧
    ((main goodEnv noFaults (main goodEnv noFaults emptyState).2.1).1 =
        (main goodEnv noFaults emptyState).1 ∧
     (main goodEnv noFaults (main goodEnv noFaults emptyState).2.1).2.1 =
        (main goodEnv noFaults emptyState).2.1 ∧
     (main goodEnv noFaults (main goodEnv noFaults emptyState).2.1).2.2.filter
        Event.isCreate = [] ∧
     ((main goodEnv noFaults (main goodEnv noFaults emptyState).2.1).2.2.filter
        Event.isLookup).length = 6) := by
  refine ⟨fun f st n x hl hm => ?_, fun f st n lt x hl hm => ?_,
    fun f st n x hl hm => ?_, fun f st m man x hl hm => ?_,
    fun f st n x hl hm => ?_, fun f st n loc dt rl x hl hm => ?_, by decide⟩
  · simp [get_or_create_location_type, apiGet, hl, hm, singleMatch]
  · simp [get_or_create_location, apiGet, hl, hm, singleMatch]
  · simp [get_or_create_manufacturer, apiGet, hl, hm, singleMatch]
  · simp [get_or_create_device_type, apiGet, hl, hm, singleMatch]
  · simp [get_or_create_role, apiGet, hl, hm, singleMatch]
  · simp [create_device, apiGet, hl, hm, singleMatch]

/-- Witness for C1: on the state left by a fresh run, each of the six
resolvers finds its entity and returns it with no create. -/
theorem c1_witness :
    get_or_create_location_type noFaults freshRunState "Campus" =
      (.ok { id := 0, name := "Campus", description := "Created by script for Campus", content_types := ["dcim.device"] },
       freshRunState, [.lookup .locationTypes,
         .print (.info "Found existing location type: Campus")]) ∧
    get_or_create_location noFaults freshRunState "MyCampusLocation"
        { id := 0, name := "Campus", description := "Created by script for Campus", content_types := ["dcim.device"] } =
      (.ok { id := 1, name := "MyCampusLocation", location_type := 0, status := "Active" },
       freshRunState, [.lookup .locations,
         .print (.info "Found existing location: MyCampusLocation")]) ∧
    get_or_create_manufacturer noFaults freshRunState "Cisco" =
      (.ok { id := 2, name := "Cisco" },
       freshRunState, [.lookup .manufacturers,
         .print (.info "Found existing manufacturer: Cisco")]) ∧
    get_or_create_device_type noFaults freshRunState "C9300-48P" { id := 2, name := "Cisco" } =
      (.ok { id := 3, model := "C9300-48P", manufacturer := 2 },
       freshRunState, [.lookup .deviceTypes,
         .print (.info "Found existing device type: C9300-48P")]) ∧
    get_or_create_role noFaults freshRunState "Access Switch" =
      (.ok { id := 4, name := "Access Switch", description := "Device role for Access Switch", content_types := ["dcim.device"] },
       freshRunState, [.lookup .roles,
         .print (.info "Found existing role: Access Switch")]) ∧
    create_device noFaults freshRunState "myswitch001"
        { id := 1, name := "MyCampusLocation", location_type := 0, status := "Active" }
        { id := 3, model := "C9300-48P", manufacturer := 2 }
        { id := 4, name := "Access Switch", description := "Device role for Access Switch", content_types := ["dcim.device"] } =
      (.ok { id := 5, name := "myswitch001", device_type := 3, role := 4, location := 1, status := "Active" },
       freshRunState, [.lookup .devices,
         .print (.warning "Device myswitch001 already exists at location MyCampusLocation.")]) := by
  have h := c1_second_run_reuses_existing
  exact ⟨h.1 noFaults freshRunState "Campus" _ rfl (by decide),
    h.2.1 noFaults freshRunState "MyCampusLocation" _ _ rfl (by decide),
    h.2.2.1 noFaults freshRunState "Cisco" _ rfl (by decide),
    h.2.2.2.1 noFaults freshRunState "C9300-48P" _ _ rfl (by decide),
    h.2.2.2.2.1 noFaults freshRunState "Access Switch" _ rfl (by decide),
    h.2.2.2.2.2.1 noFaults freshRunState "myswitch001" _ _ _ _ rfl (by decide)⟩

/-- Claim C2: the device existence check is keyed on the pair (name, location id).
If the lookup finds a device with this name at this location, a warning-level
line is printed and that device is returned (the run proceeds).  If no stored
device has both this name and this location id, a create is issued and the
newly created device is returned — in particular (third conjunct) when a
device with this very name is present but at a different location id, it is
not treated as a match and the create still happens. -/
theorem c2_device_keyed_on_name_and_location (f : Faults) (st : RemoteState)
    (n : String) (loc : Location)
    (hl : f.lookupFails .devices = false) :
    (∀ d dt rl,
      st.devices.filter (fun x => x.name == n && x.location == loc.id) = [d] →
      create_device f st n loc dt rl =
        (.ok d, st,
         [.lookup .devices,
          .print (.warning ("Device " ++ n ++ " already exists at location "
            ++ loc.name ++ "."))])) ∧
    (∀ dt rl, f.createFails .devices = false →
      (∀ x ∈ st.devices, ¬(x.name = n ∧ x.location = loc.id)) →
      create_device f st n loc dt rl =
        (.ok (newDevice st n loc dt rl), addDevice st (newDevice st n loc dt rl),
         [.lookup .devices, .print (.info ("Creating new device " ++ n ++ "...")),
          .create .devices])) ∧
    (∀ d dt rl, f.createFails .devices = false →
      d ∈ st.devices → d.name = n → d.location ≠ loc.id →
      (∀ x ∈ st.devices, x.name = n → x.location ≠ loc.id) →
      create_device f st n loc dt rl =
        (.ok (newDevice st n loc dt rl), addDevice st (newDevice st n loc dt rl),
         [.lookup .devices, .print (.info ("Creating new device " ++ n ++ "...")),
          .create .devices])) := by
  have hfil : (∀ x ∈ st.devices, ¬(x.name = n ∧ x.location = loc.id)) →
      st.devices.filter (fun x => x.name == n && x.location == loc.id) = [] := by
    intro hne
    rw [List.filter_eq_nil_iff]
    intro x hx
    simp only [Bool.and_eq_true, beq_iff_eq, not_and]
    intro h1 h2
    exact hne x hx ⟨h1, h2⟩
  refine ⟨fun d dt rl hm => ?_, fun dt rl hc habs => ?_,
    fun d dt rl hc hmem hname hloc habs => ?_⟩
  · simp [create_device, apiGet, hl, hm, singleMatch]
  · simp [create_device, apiGet, hl, hc, hfil habs, singleMatch]
  · have habs2 : ∀ x ∈ st.devices, ¬(x.name = n ∧ x.location = loc.id) :=
      fun x hx hxx => habs x hx hxx.1 hxx.2
    simp [create_device, apiGet, hl, hc, hfil habs2, singleMatch]

/-- A remote state whose only device has the name "myswitch001" but lives at
location id 99. -/
def otherLocationDeviceState : RemoteState :=
  { emptyState with
      devices := [{ id := 5, name := "myswitch001", device_type := 3,
                    role := 4, location := 99, status := "Active" }],
      nextId := 6 }

/-- Witness for C2: with a (name, location) match stored the resolver
returns the existing device with a warning; on the empty state it creates;
and with the same-named device stored at location 99 (present, wrong
location) the resolver called for location 1 still issues a create. -/
theorem c2_witness :
    create_device noFaults oneDeviceState "myswitch001"
        { id := 1, name := "MyCampusLocation", location_type := 0, status := "Active" }
        { id := 3, model := "C9300-48P", manufacturer := 2 }
        { id := 4, name := "Access Switch", description := "", content_types := [] } =
      (.ok { id := 5, name := "myswitch001", device_type := 3, role := 4,
             location := 1, status := "Active" },
       oneDeviceState,
       [.lookup .devices,
        .print (.warning "Device myswitch001 already exists at location MyCampusLocation.")]) ∧
    create_device noFaults emptyState "myswitch001"
        { id := 1, name := "MyCampusLocation", location_type := 0, status := "Active" }
        { id := 3, model := "C9300-48P", manufacturer := 2 }
        { id := 4, name := "Access Switch", description := "", content_types := [] } =
      (.ok { id := 0, name := "myswitch001", device_type := 3, role := 4,
             location := 1, status := "Active" },
       { emptyState with
           devices := [{ id := 0, name := "myswitch001", device_type := 3, role := 4, location := 1, status := "Active" }],
           nextId := 1 },
       [.lookup .devices, .print (.info "Creating new device myswitch001..."),
        .create .devices]) ∧
    create_device noFaults otherLocationDeviceState "myswitch001"
        { id := 1, name := "MyCampusLocation", location_type := 0, status := "Active" }
        { id := 3, model := "C9300-48P", manufacturer := 2 }
        { id := 4, name := "Access Switch", description := "", content_types := [] } =
      (.ok { id := 6, name := "myswitch001", device_type := 3, role := 4,
             location := 1, status := "Active" },
       { otherLocationDeviceState with
           devices := otherLocationDeviceState.devices
             ++ [{ id := 6, name := "myswitch001", device_type := 3, role := 4, location := 1, status := "Active" }],
           nextId := 7 },
       [.lookup .devices, .print (.info "Creating new device myswitch001..."),
        .create .devices]) := by
  refine ⟨?_, ?_, ?_⟩
  · exact (c2_device_keyed_on_name_and_location noFaults oneDeviceState
      "myswitch001"
      { id := 1, name := "MyCampusLocation", location_type := 0, status := "Active" }
      rfl).1 _ _ _ (by decide)
  · exact (c2_device_keyed_on_name_and_location noFaults emptyState
      "myswitch001"
      { id := 1, name := "MyCampusLocation", location_type := 0, status := "Active" }
      rfl).2.1 _ _ rfl (by decide)
  · exact (c2_device_keyed_on_name_and_location noFaults otherLocationDeviceState
      "myswitch001"
      { id := 1, name := "MyCampusLocation", location_type := 0, status := "Active" }
      rfl).2.2 { id := 5, name := "myswitch001", device_type := 3, role := 4, location := 99, status := "Active" }
      _ _ rfl (by decide) (by decide) (by decide) (by decide)

/-- Claim C7: the get-or-create contract of every resolver.  When the collection
query yields exactly one match (`singleMatch … = some x`) the match is
returned unchanged with no create; in every other case — zero matches or
several, `singleMatch … = none` — the resolver issues a create with the full
attribute payload (`new…`, which includes the resolved foreign-key ids) and
returns the newly created resource. -/
theorem c7_resolver_contract (f : Faults) (st : RemoteState) :
    (∀ n x, f.lookupFails .locationTypes = false →
      singleMatch (st.location_types.filter (fun y => y.name == n)) = some x →
      get_or_create_location_type f st n =
        (.ok x, st, [.lookup .locationTypes,
          .print (.info ("Found existing location type: " ++ x.name))])) ∧
    (∀ n, f.lookupFails .locationTypes = false →
      f.createFails .locationTypes = false →
      singleMatch (st.location_types.filter (fun y => y.name == n)) = none →
      get_or_create_location_type f st n =
        (.ok (newLocationType st n), addLocationType st (newLocationType st n),
         [.lookup .locationTypes,
          .print (.info ("Creating location type " ++ n ++ "...")),
          .create .locationTypes])) ∧
    (∀ n lt x, f.lookupFails .locations = false →
      singleMatch (st.locations.filter (fun y => y.name == n)) = some x →
      get_or_create_location f st n lt =
        (.ok x, st, [.lookup .locations,
          .print (.info ("Found existing location: " ++ x.name))])) ∧
    (∀ n lt, f.lookupFails .locations = false →
      f.createFails .locations = false →
      singleMatch (st.locations.filter (fun y => y.name == n)) = none →
      get_or_create_location f st n lt =
        (.ok (newLocation st n lt), addLocation st (newLocation st n lt),
         [.lookup .locations,
          .print (.info ("Creating location " ++ n ++ " with type "
            ++ lt.name ++ "...")),
          .create .locations])) ∧
    (∀ n x, f.lookupFails .manufacturers = false →
      singleMatch (st.manufacturers.filter (fun y => y.name == n)) = some x →
      get_or_create_manufacturer f st n =
        (.ok x, st, [.lookup .manufacturers,
          .print (.info ("Found existing manufacturer: " ++ x.name))])) ∧
    (∀ n, f.lookupFails .manufacturers = false →
      f.createFails .manufacturers = false →
      singleMatch (st.manufacturers.filter (fun y => y.name == n)) = none →
      get_or_create_manufacturer f st n =
        (.ok (newManufacturer st n), addManufacturer st (newManufacturer st n),
         [.lookup .manufacturers,
          .print (.info ("Creating manufacturer " ++ n ++ "...")),
          .create .manufacturers])) ∧
    (∀ m man x, f.lookupFails .deviceTypes = false →
      singleMatch (st.device_types.filter
        (fun y => y.model == m && y.manufacturer == man.id)) = some x →
      get_or_create_device_type f st m man =
        (.ok x, st, [.lookup .deviceTypes,
          .print (.info ("Found existing device type: " ++ x.model))])) ∧
    (∀ m man, f.lookupFails .deviceTypes = false →
      f.createFails .deviceTypes = false →
      singleMatch (st.device_types.filter
        (fun y => y.model == m && y.manufacturer == man.id)) = none →
      get_or_create_device_type f st m man =
        (.ok (newDeviceType st m man), addDeviceType st (newDeviceType st m man),
         [.lookup .deviceTypes,
          .print (.info ("Creating device type " ++ m ++ " for manufacturer "
            ++ man.name ++ "...")),
          .create .deviceTypes])) ∧
    (∀ n x, f.lookupFails .roles = false →
      singleMatch (st.roles.filter (fun y => y.name == n)) = some x →
      get_or_create_role f st n =
        (.ok x, st, [.lookup .roles,
          .print (.info ("Found existing role: " ++ x.name))])) ∧
    (∀ n, f.lookupFails .roles = false →
      f.createFails .roles = false →
      singleMatch (st.roles.filter (fun y => y.name == n)) = none →
      get_or_create_role f st n =
        (.ok (newRole st n), addRole st (newRole st n),
         [.lookup .roles,
          .print (.info ("Creating role " ++ n ++ " for devices...")),
          .create .roles])) ∧
    (∀ n loc dt rl x, f.lookupFails .devices = false →
      singleMatch (st.devices.filter
        (fun y => y.name == n && y.location == loc.id)) = some x →
      create_device f st n loc dt rl =
        (.ok x, st, [.lookup .devices,
          .print (.warning ("Device " ++ n ++ " already exists at location "
            ++ loc.name ++ "."))])) ∧
    (∀ n loc dt rl, f.lookupFails .devices = false →
      f.createFails .devices = false →
      singleMatch (st.devices.filter
        (fun y => y.name == n && y.location == loc.id)) = none →
      create_device f st n loc dt rl =
        (.ok (newDevice st n loc dt rl), addDevice st (newDevice st n loc dt rl),
         [.lookup .devices,
          .print (.info ("Creating new device " ++ n ++ "...")),
          .create .devices])) := by
  refine ⟨fun n x hl hm => ?_, fun n hl hc hm => ?_,
    fun n lt x hl hm => ?_, fun n lt hl hc hm => ?_,
    fun n x hl hm => ?_, fun n hl hc hm => ?_,
    fun m man x hl hm => ?_, fun m man hl hc hm => ?_,
    fun n x hl hm => ?_, fun n hl hc hm => ?_,
    fun n loc dt rl x hl hm => ?_, fun n loc dt rl hl hc hm => ?_⟩
  · simp [get_or_create_location_type, apiGet, hl, hm]
  · simp [get_or_create_location_type, apiGet, hl, hc, hm]
  · simp [get_or_create_location, apiGet, hl, hm]
  · simp [get_or_create_location, apiGet, hl, hc, hm]
  · simp [get_or_create_manufacturer, apiGet, hl, hm]
  · simp [get_or_create_manufacturer, apiGet, hl, hc, hm]
  · simp [get_or_create_device_type, apiGet, hl, hm]
  · simp [get_or_create_device_type, apiGet, hl, hc, hm]
  · simp [get_or_create_role, apiGet, hl, hm]
  · simp [get_or_create_role, apiGet, hl, hc, hm]
  · simp [create_device, apiGet, hl, hm]
  · simp [create_device, apiGet, hl, hc, hm]

/-- Witness for C7: on the post-run state each resolver's found branch fires;
on the empty state each resolver's create branch fires with the full payload. -/
theorem c7_witness :
    get_or_create_location_type noFaults freshRunState "Campus" =
      (.ok { id := 0, name := "Campus", description := "Created by script for Campus", content_types := ["dcim.device"] },
       freshRunState, [.lookup .locationTypes, .print (.info "Found existing location type: Campus")]) ∧
    get_or_create_location_type noFaults emptyState "Campus" =
      (.ok (newLocationType emptyState "Campus"),
       addLocationType emptyState (newLocationType emptyState "Campus"),
       [.lookup .locationTypes, .print (.info "Creating location type Campus..."),
        .create .locationTypes]) ∧
    get_or_create_location noFaults freshRunState "MyCampusLocation" (newLocationType emptyState "Campus") =
      (.ok { id := 1, name := "MyCampusLocation", location_type := 0, status := "Active" },
       freshRunState, [.lookup .locations, .print (.info "Found existing location: MyCampusLocation")]) ∧
    get_or_create_location noFaults emptyState "MyCampusLocation" (newLocationType emptyState "Campus") =
      (.ok (newLocation emptyState "MyCampusLocation" (newLocationType emptyState "Campus")),
       addLocation emptyState (newLocation emptyState "MyCampusLocation" (newLocationType emptyState "Campus")),
       [.lookup .locations, .print (.info "Creating location MyCampusLocation with type Campus..."),
        .create .locations]) ∧
    get_or_create_manufacturer noFaults freshRunState "Cisco" =
      (.ok { id := 2, name := "Cisco" },
       freshRunState, [.lookup .manufacturers, .print (.info "Found existing manufacturer: Cisco")]) ∧
    get_or_create_manufacturer noFaults emptyState "Cisco" =
      (.ok (newManufacturer emptyState "Cisco"),
       addManufacturer emptyState (newManufacturer emptyState "Cisco"),
       [.lookup .manufacturers, .print (.info "Creating manufacturer Cisco..."),
        .create .manufacturers]) ∧
    get_or_create_device_type noFaults freshRunState "C9300-48P" { id := 2, name := "Cisco" } =
      (.ok { id := 3, model := "C9300-48P", manufacturer := 2 },
       freshRunState, [.lookup .deviceTypes, .print (.info "Found existing device type: C9300-48P")]) ∧
    get_or_create_device_type noFaults emptyState "C9300-48P" { id := 2, name := "Cisco" } =
      (.ok (newDeviceType emptyState "C9300-48P" { id := 2, name := "Cisco" }),
       addDeviceType emptyState (newDeviceType emptyState "C9300-48P" { id := 2, name := "Cisco" }),
       [.lookup .deviceTypes, .print (.info "Creating device type C9300-48P for manufacturer Cisco..."),
        .create .deviceTypes]) ∧
    get_or_create_role noFaults freshRunState "Access Switch" =
      (.ok { id := 4, name := "Access Switch", description := "Device role for Access Switch", content_types := ["dcim.device"] },
       freshRunState, [.lookup .roles, .print (.info "Found existing role: Access Switch")]) ∧
    get_or_create_role noFaults emptyState "Access Switch" =
      (.ok (newRole emptyState "Access Switch"),
       addRole emptyState (newRole emptyState "Access Switch"),
       [.lookup .roles, .print (.info "Creating role Access Switch for devices..."),
        .create .roles]) ∧
    create_device noFaults freshRunState "myswitch001"
        { id := 1, name := "MyCampusLocation", location_type := 0, status := "Active" }
        { id := 3, model := "C9300-48P", manufacturer := 2 }
        { id := 4, name := "Access Switch", description := "Device role for Access Switch", content_types := ["dcim.device"] } =
      (.ok { id := 5, name := "myswitch001", device_type := 3, role := 4, location := 1, status := "Active" },
       freshRunState,
       [.lookup .devices, .print (.warning "Device myswitch001 already exists at location MyCampusLocation.")]) ∧
    create_device noFaults emptyState "myswitch001"
        { id := 1, name := "MyCampusLocation", location_type := 0, status := "Active" }
        { id := 3, model := "C9300-48P", manufacturer := 2 }
        { id := 4, name := "Access Switch", description := "Device role for Access Switch", content_types := ["dcim.device"] } =
      (.ok (newDevice emptyState "myswitch001" { id := 1, name := "MyCampusLocation", location_type := 0, status := "Active" } { id := 3, model := "C9300-48P", manufacturer := 2 } { id := 4, name := "Access Switch", description := "Device role for Access Switch", content_types := ["dcim.device"] }),
       addDevice emptyState (newDevice emptyState "myswitch001" { id := 1, name := "MyCampusLocation", location_type := 0, status := "Active" } { id := 3, model := "C9300-48P", manufacturer := 2 } { id := 4, name := "Access Switch", description := "Device role for Access Switch", content_types := ["dcim.device"] }),
       [.lookup .devices, .print (.info "Creating new device myswitch001..."),
        .create .devices]) := by
  have h := c7_resolver_contract noFaults
  exact ⟨(h freshRunState).1 "Campus" _ rfl (by decide),
    (h emptyState).2.1 "Campus" rfl rfl (by decide),
    (h freshRunState).2.2.1 "MyCampusLocation" _ _ rfl (by decide),
    (h emptyState).2.2.2.1 "MyCampusLocation" _ rfl rfl (by decide),
    (h freshRunState).2.2.2.2.1 "Cisco" _ rfl (by decide),
    (h emptyState).2.2.2.2.2.1 "Cisco" rfl rfl (by decide),
    (h freshRunState).2.2.2.2.2.2.1 "C9300-48P" _ _ rfl (by decide),
    (h emptyState).2.2.2.2.2.2.2.1 "C9300-48P" _ rfl rfl (by decide),
    (h freshRunState).2.2.2.2.2.2.2.2.1 "Access Switch" _ rfl (by decide),
    (h emptyState).2.2.2.2.2.2.2.2.2.1 "Access Switch" rfl rfl (by decide),
    (h freshRunState).2.2.2.2.2.2.2.2.2.2.1 "myswitch001" _ _ _ _ rfl (by decide),
    (h emptyState).2.2.2.2.2.2.2.2.2.2.2 "myswitch001" _ _ _ rfl rfl (by decide)⟩

end Day15
